import Mathlib

/-!
Verification development for the VibeCAD repository: a single-tool MCP
adapter (src/server.ts) that imports an ASCII STL string into the Onshape
CAD service via three sequential REST calls, plus a setup shell script that
registers the adapter in a local JSON configuration file.

The TypeScript adapter is shallowly embedded as total Lean functions.
External effects are made explicit:
  * the CAD service and the transport layer are an environment field
    `respond` giving, for the n-th fetch of an invocation, either an HTTP
    response (ok flag, status, body text) or a transport-level rejection;
  * the JavaScript runtime function JSON.parse is an environment field
    `parse` (the adapter only ever pipes response text through it);
  * `new Date().toISOString()` is an environment field `nowISO`.
Each invocation of the tool returns both its tool result (text payload and
error flag) and the ordered trace of API calls it issued, so that ordering
and abort properties are statements about the trace.

JavaScript value semantics that the adapter relies on (property access on
the result of JSON.parse, string interpolation of such values, truthiness)
are modelled on a small JSON value type with an explicit `undef`
constructor for the JavaScript undefined value.
-/

namespace VibeCAD

/-- JSON-ish JavaScript values flowing through the adapter: everything
JSON.parse can produce, plus `undef` for the JavaScript undefined value
that property access on a missing key yields.  Numbers are modelled as
integers (no claim depends on float behaviour). -/
inductive Json where
  | null
  | undef
  | bool (b : Bool)
  | num (n : Int)
  | str (s : String)
  | arr (elems : List Json)
  | obj (fields : List (String × Json))
deriving Repr

/-- First-match lookup in a JavaScript object field list (JSON.parse output
has unique keys, so first-match agrees with JavaScript). -/
def lookupField : List (String × Json) → String → Option Json
  | [], _ => none
  | (k, v) :: rest, key => if k = key then some v else lookupField rest key

/-- JavaScript property read `v[k]`: throws a TypeError on null/undefined,
yields undefined on a missing key or a non-object, the field value
otherwise.  The error string is the thrown TypeError message, as caught by
the handler. -/
def jsGet (v : Json) (k : String) : Except String Json :=
  match v with
  | Json.undef => Except.error ("Cannot read properties of undefined (reading " ++ k ++ ")")
  | Json.null => Except.error ("Cannot read properties of null (reading " ++ k ++ ")")
  | Json.obj fs => Except.ok ((lookupField fs k).getD Json.undef)
  | _ => Except.ok Json.undef

/-- JavaScript string coercion, as performed by template literal
interpolation.  Arrays join their elements with commas; plain objects
stringify to [object Object]. -/
def jsToString : Json → String
  | Json.null => "null"
  | Json.undef => "undefined"
  | Json.bool true => "true"
  | Json.bool false => "false"
  | Json.num n => toString n
  | Json.str s => s
  | Json.arr xs => String.intercalate "," (xs.attach.map (fun e => jsToString e.1))
  | Json.obj _ => "[object Object]"
decreasing_by simp_wf; have := List.sizeOf_lt_of_mem e.2; omega

/-- JavaScript truthiness of a value. -/
def jsTruthy : Json → Bool
  | Json.null => false
  | Json.undef => false
  | Json.bool b => b
  | Json.num n => !(n == 0)
  | Json.str s => !(s == "")
  | Json.arr _ => true
  | Json.obj _ => true

/-- UTF-8 encoding of a single code point, as a list of byte values. -/
def utf8Bytes (c : Nat) : List Nat :=
  if c < 0x80 then [c]
  else if c < 0x800 then [0xC0 + c / 64, 0x80 + c % 64]
  else if c < 0x10000 then [0xE0 + c / 4096, 0x80 + (c / 64) % 64, 0x80 + c % 64]
  else [0xF0 + c / 262144, 0x80 + (c / 4096) % 64, 0x80 + (c / 64) % 64, 0x80 + c % 64]

/-- Byte values of the UTF-8 encoding of a string (Buffer.from in Node). -/
def strBytes (s : String) : List Nat :=
  s.data.flatMap (fun ch => utf8Bytes ch.toNat)

def base64Alphabet : String :=
  "ABCDEFGHIJKLMNOPQRSTUVWXYZabcdefghijklmnopqrstuvwxyz0123456789+/"

def base64Digit (n : Nat) : Char := base64Alphabet.data.getD n 'A'

/-- Standard base64 encoding of a byte list (Buffer.toString with the
base64 encoding in Node). -/
def base64Chunks : List Nat → List Char
  | a :: b :: c :: rest =>
      base64Digit (a / 4) :: base64Digit ((a % 4) * 16 + b / 16) ::
        base64Digit ((b % 16) * 4 + c / 64) :: base64Digit (c % 64) :: base64Chunks rest
  | [a, b] => [base64Digit (a / 4), base64Digit ((a % 4) * 16 + b / 16),
      base64Digit ((b % 16) * 4), '=']
  | [a] => [base64Digit (a / 4), base64Digit ((a % 4) * 16), '=', '=']
  | [] => []

def base64Of (s : String) : String := String.mk (base64Chunks (strBytes s))

def hexDigit (n : Nat) : Char := "0123456789ABCDEF".data.getD n '0'

/-- Characters encodeURIComponent leaves unescaped. -/
def uriUnescaped (c : Char) : Bool :=
  c.isAlpha || c.isDigit ||
    c == '-' || c == '_' || c == '.' || c == '!' || c == '~' || c == '*' ||
    c == '\x27' || c == '(' || c == ')'

/-- The JavaScript encodeURIComponent function: percent-encodes every
UTF-8 byte of each character outside the unescaped set. -/
def encodeURIComponent (s : String) : String :=
  String.mk (s.data.flatMap (fun c =>
    if uriUnescaped c then [c]
    else (utf8Bytes c.toNat).flatMap (fun b => ['%', hexDigit (b / 16), hexDigit (b % 16)])))

/-! ### The adapter (src/server.ts) -/

/-- One HTTP response as seen by onshapeApiRequest: the `ok` flag, the
status code and the body text of the node-fetch Response. -/
structure FetchResponse where
  ok : Bool
  status : Nat
  text : String
deriving Repr, DecidableEq

/-- Outcome of one fetch: either a response arrived, or the fetch promise
rejected with a transport-level error message (carried into err.message). -/
inductive FetchOutcome where
  | response (r : FetchResponse)
  | reject (msg : String)
deriving Repr, DecidableEq

/-- Body of an outgoing request: absent, a JSON value (serialised with
Content-Type application/json), or a multipart form. -/
structure FormPart where
  field : String
  content : String
  filename : String
  contentType : String
deriving Repr

inductive RequestBody where
  | none
  | json (j : Json)
  | form (parts : List FormPart)
deriving Repr

/-- The method, path and body handed to onshapeApiRequest; the full URL is
`ONSHAPE_API_URL ++ path` (see `requestUrl`). -/
structure ApiCall where
  method : String
  path : String
  body : RequestBody
deriving Repr

/-- The ambient world of one invocation: the static configuration, the
clock reading taken by `new Date().toISOString()`, the external CAD
service and transport (`respond`, indexed by the fetch count within the
invocation), and the runtime JSON.parse (`parse`; an error is the thrown
SyntaxError message). -/
structure Env where
  apiUrl : String
  authHeader : String
  nowISO : String
  respond : Nat → ApiCall → FetchOutcome
  parse : String → Except String Json

/-- URL construction in onshapeApiRequest. -/
def requestUrl (env : Env) (c : ApiCall) : String := env.apiUrl ++ c.path

/-- Headers set by onshapeApiRequest (FormData supplies the multipart
Content-Type with its boundary itself). -/
def requestHeaders (env : Env) (c : ApiCall) : List (String × String) :=
  [("Authorization", env.authHeader), ("Accept", "application/json")] ++
    (match c.body with
     | RequestBody.json _ => [("Content-Type", "application/json")]
     | _ => [])

/-- The helper onshapeApiRequest: performs one fetch; a non-ok response
throws an Error tagged with status and body text; an ok response has its
body text run through JSON.parse (an empty text yields the empty object).
The returned Except is the promise: ok = resolved value, error = the
message of the thrown/rejected Error. -/
def onshapeApiRequest (env : Env) (idx : Nat) (c : ApiCall) : Except String Json :=
  match env.respond idx c with
  | FetchOutcome.reject msg => Except.error msg
  | FetchOutcome.response r =>
    if r.ok = false then
      Except.error ("Onshape API Error " ++ toString r.status ++ ": " ++ r.text)
    else if r.text = "" then Except.ok (Json.obj [])
    else env.parse r.text

/-- Arguments of the import_stl tool, after zod decoding: required stl,
optional documentName, filename and createNewPartStudio. -/
structure ImportParams where
  stl : String
  documentName : Option String
  filename : Option String
  createNewPartStudio : Option Bool
deriving Repr, DecidableEq

/-- Line 121: documentName falling back to the template literal
AI Model followed by the ISO timestamp. -/
def docNameOf (env : Env) (p : ImportParams) : String :=
  p.documentName.getD ("AI Model " ++ env.nowISO)

/-- Line 122: filename ?? "model.stl". -/
def fileNameOf (p : ImportParams) : String :=
  p.filename.getD "model.stl"

/-- Step 1 request: POST /documents with JSON body naming the document and
marking it private. -/
def callCreate (env : Env) (p : ImportParams) : ApiCall :=
  { method := "POST"
    path := "/documents"
    body := RequestBody.json (Json.obj
      [("name", Json.str (docNameOf env p)), ("public", Json.bool false)]) }

/-- The property reads `doc.id` and `doc.defaultWorkspace.id` performed
while building the upload path (in template-literal order); a TypeError
from a null/undefined base propagates as a thrown error. -/
def docIds (doc : Json) : Except String (String × String) := do
  let idv ← jsGet doc "id"
  let dw ← jsGet doc "defaultWorkspace"
  let wid ← jsGet dw "id"
  Except.ok (jsToString idv, jsToString wid)

/-- Step 2 request: POST the STL as a multipart blob under the created
document d and its default workspace w. -/
def callUpload (p : ImportParams) (d w : String) : ApiCall :=
  { method := "POST"
    path := "/blobelements/d/" ++ d ++ "/w/" ++ w ++ "?encodedFilename=" ++
      encodeURIComponent (fileNameOf p)
    body := RequestBody.form
      [{ field := "file", content := p.stl, filename := fileNameOf p,
         contentType := "application/octet-stream" }] }

/-- Step 3 request: POST the import order for the uploaded blob, with JSON
body naming format STL and the blob element id. -/
def callImport (p : ImportParams) (d w : String) (blobId : Json) : ApiCall :=
  { method := "POST"
    path := "/partstudios/d/" ++ d ++ "/w/" ++ w ++ "/import"
    body := RequestBody.json (Json.obj
      [("format", Json.str "STL"), ("blobElementId", blobId),
       ("importIntoPartStudio", Json.bool true),
       ("createNewPartStudio", Json.bool (p.createNewPartStudio.getD false))]) }

/-- The tool result: one text content item plus the isError flag (absent
in the success literal, hence false). -/
structure ToolResult where
  text : String
  isError : Bool
deriving Repr, DecidableEq

/-- The catch branch: the error text prepended with the fixed marker. -/
def errResult (m : String) : ToolResult :=
  { text := "❌ Error importing STL: " ++ m, isError := true }

/-- The success literal of lines 157-164. -/
def successText (docName d : String) : String :=
  "🎉 Imported STL into Onshape!\nDocument: " ++ docName ++ "\nID: " ++ d ++
    "\nView: https://cad.onshape.com/documents/" ++ d

/-- The import_stl handler body (lines 120-175): the three sequential
calls with early exit, wrapped in try/catch.  Returns the tool result and
the ordered trace of API calls issued. -/
def importStlHandler (env : Env) (p : ImportParams) : ToolResult × List ApiCall :=
  match onshapeApiRequest env 0 (callCreate env p) with
  | Except.error m => (errResult m, [callCreate env p])
  | Except.ok doc =>
    match docIds doc with
    | Except.error m => (errResult m, [callCreate env p])
    | Except.ok (d, w) =>
      match onshapeApiRequest env 1 (callUpload p d w) with
      | Except.error m => (errResult m, [callCreate env p, callUpload p d w])
      | Except.ok blob =>
        match jsGet blob "id" with
        | Except.error m => (errResult m, [callCreate env p, callUpload p d w])
        | Except.ok blobId =>
          match onshapeApiRequest env 2 (callImport p d w blobId) with
          | Except.error m =>
            (errResult m,
             [callCreate env p, callUpload p d w, callImport p d w blobId])
          | Except.ok _ =>
            ({ text := successText (docNameOf env p) d, isError := false },
             [callCreate env p, callUpload p d w, callImport p d w blobId])

/-- Error result produced by the tool layer when the zod schema rejects
the arguments (stl must contain at least one character); the handler is
never entered and no fetch happens. -/
def invalidParamsResult : ToolResult :=
  { text := "Invalid arguments for tool import_stl", isError := true }

/-- The import_stl tool as registered with the MCP server: zod validation
of stl (z.string().min(1), failing exactly on the empty string), then the
handler. -/
def importStlTool (env : Env) (p : ImportParams) : ToolResult × List ApiCall :=
  if p.stl = "" then (invalidParamsResult, [])
  else importStlHandler env p

/-! ### Startup credential handling (lines 21-33) -/

/-- JavaScript truthiness of a process.env entry (string or undefined):
missing and empty values are falsy. -/
def envTruthy : Option String → Bool
  | none => false
  | some s => !(s == "")

/-- The Basic authorization header value computed at line 32-33 from the
two keys. -/
def authHeaderOf (access secret : String) : String :=
  "Basic " ++ base64Of (access ++ ":" ++ secret)

/-- Startup (lines 22-33): given the two environment entries, either exit
before serving anything (none) when the falsy check fires, or compute the
authorization header once, an immutable value for the rest of the
process. -/
def startup (access secret : Option String) : Option String :=
  if envTruthy access && envTruthy secret then
    some (authHeaderOf (access.getD "") (secret.getD ""))
  else none

/-! ### The setup script (setup shell script with embedded node one-liners)

The script is modelled by the ordered list of file operations it performs
on the Claude Desktop configuration file: plain writes (fs.writeFileSync
or the heredoc creation) and the cp backup.  Steps that cannot touch the
file (build, prompts, echo) are omitted.  The configuration file, when it
exists and parses, is taken to hold a JSON object (the shape the
application writes); its parsed field list is the `parsed` input, with
none standing for a JSON.parse failure, which makes the embedded node
process exit nonzero and the script abort. -/

/-- JavaScript property assignment obj[k] = v on a field list: an
existing key keeps its position and gets the new value, a new key is
appended. -/
def objSet : List (String × Json) → String → Json → List (String × Json)
  | [], k, v => [(k, v)]
  | (k1, v1) :: rest, k, v =>
      if k1 = k then (k, v) :: rest else (k1, v1) :: objSet rest k v

/-- Field read defaulting to the JavaScript undefined value. -/
def lookupD (fs : List (String × Json)) (k : String) : Json :=
  (lookupField fs k).getD Json.undef

/-- The server entry the script installs (step 7 node script): command,
args and the three environment variables. -/
def serverEntry (projectDir access secret : String) : Json :=
  Json.obj
    [("command", Json.str "node"),
     ("args", Json.arr [Json.str (projectDir ++ "/dist/server.js")]),
     ("env", Json.obj
       [("ONSHAPE_ACCESS_KEY", Json.str access),
        ("ONSHAPE_SECRET_KEY", Json.str secret),
        ("ONSHAPE_API_URL", Json.str "https://cad.onshape.com/api/v11")])]

/-- config.mcpServers[onshape_mcp] = entry.  On an object the entry is
set; on any other value the assignment leaves no trace in the file (a
string-keyed property on an array is dropped by JSON.stringify, and a
property set on a primitive is silently discarded in sloppy mode). -/
def setMcpEntry (v : Json) (entry : Json) : Json :=
  match v with
  | Json.obj g => Json.obj (objSet g "onshape_mcp" entry)
  | other => other

/-- The defensive re-check in the step 7 node script: if mcpServers is
falsy it is (re)assigned the empty object. -/
def ensureMcp (fs : List (String × Json)) : List (String × Json) :=
  if jsTruthy (lookupD fs "mcpServers") then fs
  else objSet fs "mcpServers" (Json.obj [])

/-- The step 7 node update: ensure a truthy mcpServers, then install the
onshape_mcp entry under it. -/
def updateConfig (fs : List (String × Json)) (entry : Json) : List (String × Json) :=
  objSet (ensureMcp fs) "mcpServers"
    (setMcpEntry (lookupD (ensureMcp fs) "mcpServers") entry)

/-- A file operation on the configuration path. -/
inductive FsEvent where
  | write (path : String) (content : Json)
  | copy (src : String) (dst : String)
deriving Repr

/-- Inputs determining one run of the script: whether the config file
exists, its parsed object when it does (none = JSON.parse throws), the
final credential values after the prompts, the backup timestamp, the
project directory and the home directory. -/
structure SetupInput where
  configExists : Bool
  parsed : Option (List (String × Json))
  accessKey : String
  secretKey : String
  ts : String
  projectDir : String
  home : String
deriving Repr

/-- CLAUDE_CONFIG_FILE. -/
def cfgPath (inp : SetupInput) : String :=
  inp.home ++ "/Library/Application Support/Claude/claude_desktop_config.json"

/-- Step 6 validation: both final keys must be non-empty or the script
exits before the backup and the update. -/
def keysOk (inp : SetupInput) : Bool :=
  !(inp.accessKey == "") && !(inp.secretKey == "")

/-- The timestamped backup copy of step 7 (cp to .backup.timestamp). -/
def backupEvent (inp : SetupInput) : FsEvent :=
  FsEvent.copy (cfgPath inp) (cfgPath inp ++ ".backup." ++ inp.ts)

/-- Steps 6-7: key validation, then backup and update write.  The field
list fs is the file content at this point. -/
def step7Events (inp : SetupInput) (fs : List (String × Json)) : List FsEvent :=
  if keysOk inp then
    [backupEvent inp,
     FsEvent.write (cfgPath inp)
       (Json.obj (updateConfig fs
         (serverEntry inp.projectDir inp.accessKey inp.secretKey)))]
  else []

/-- The content written by the heredoc when the file does not exist. -/
def initialConfig : List (String × Json) := [("mcpServers", Json.obj [])]

/-- The file operations of one script run, in order.  Step 5: create the
file when missing, or normalise an existing file lacking a truthy
mcpServers key by writing the key into it; a parse failure aborts the
run.  Then steps 6-7. -/
def setupEvents (inp : SetupInput) : List FsEvent :=
  if inp.configExists = false then
    FsEvent.write (cfgPath inp) (Json.obj initialConfig) ::
      step7Events inp initialConfig
  else
    match inp.parsed with
    | none => []
    | some fs =>
      if jsTruthy (lookupD fs "mcpServers") then step7Events inp fs
      else
        FsEvent.write (cfgPath inp) (Json.obj (objSet fs "mcpServers" (Json.obj []))) ::
          step7Events inp (objSet fs "mcpServers" (Json.obj []))

/-! ### Concrete fixtures for witnesses -/

/-- A create-document response body as the service returns it. -/
def docJson : Json :=
  Json.obj [("id", Json.str "d1"), ("name", Json.str "AI Model T0"),
    ("defaultWorkspace", Json.obj [("id", Json.str "w1")])]

/-- An upload-blob response body. -/
def blobJson : Json := Json.obj [("id", Json.str "b1")]

/-- A concrete JSON.parse behaviour for the fixture bodies. -/
def parseFix : String → Except String Json := fun s =>
  if s == "docbody" then Except.ok docJson
  else if s == "blobbody" then Except.ok blobJson
  else Except.ok (Json.obj [])

/-- A service where all three calls succeed. -/
def respondAllOk : Nat → ApiCall → FetchOutcome := fun i _ =>
  if i == 0 then FetchOutcome.response { ok := true, status := 200, text := "docbody" }
  else if i == 1 then FetchOutcome.response { ok := true, status := 200, text := "blobbody" }
  else FetchOutcome.response { ok := true, status := 200, text := "" }

def envAllOk : Env :=
  { apiUrl := "https://cad.onshape.com/api/v6"
    authHeader := "Basic Zm9vOmJhcg=="
    nowISO := "2024-01-01T00:00:00.000Z"
    respond := respondAllOk
    parse := parseFix }

/-- A service whose first call fails with 401. -/
def respondCreate401 : Nat → ApiCall → FetchOutcome := fun _ _ =>
  FetchOutcome.response { ok := false, status := 401, text := "unauthorized" }

def envCreate401 : Env := { envAllOk with respond := respondCreate401 }

/-- A service where create succeeds and upload fails with 500. -/
def respondUpload500 : Nat → ApiCall → FetchOutcome := fun i _ =>
  if i == 0 then FetchOutcome.response { ok := true, status := 200, text := "docbody" }
  else FetchOutcome.response { ok := false, status := 500, text := "boom" }

def envUpload500 : Env := { envAllOk with respond := respondUpload500 }

/-- A service where the first two calls succeed and import fails 400. -/
def respondImport400 : Nat → ApiCall → FetchOutcome := fun i _ =>
  if i == 0 then FetchOutcome.response { ok := true, status := 200, text := "docbody" }
  else if i == 1 then FetchOutcome.response { ok := true, status := 200, text := "blobbody" }
  else FetchOutcome.response { ok := false, status := 400, text := "bad" }

def envImport400 : Env := { envAllOk with respond := respondImport400 }

/-- The end-to-end scenario input of the spec with no optional fields. -/
def paramsPlain : ImportParams :=
  { stl := "solid t\nendsolid t", documentName := none, filename := none,
    createNewPartStudio := none }

def paramsAltStl : ImportParams :=
  { stl := "solid u\nendsolid u", documentName := none, filename := none,
    createNewPartStudio := none }

def envLater : Env := { envAllOk with nowISO := "2024-01-02T00:00:00.000Z" }

/-! ### Helper lemmas -/

/-- Every run of the handler issues the create call first, and the whole
trace is one of the three prefixes of the full pipeline. -/
theorem handler_trace_cases (env : Env) (p : ImportParams) :
    (importStlHandler env p).2 = [callCreate env p] ∨
    (∃ d w, (importStlHandler env p).2 = [callCreate env p, callUpload p d w]) ∨
    (∃ d w bId, (importStlHandler env p).2 =
      [callCreate env p, callUpload p d w, callImport p d w bId]) := by
  unfold importStlHandler
  split
  · exact Or.inl rfl
  · split
    · exact Or.inl rfl
    · split
      · exact Or.inr (Or.inl ⟨_, _, rfl⟩)
      · split
        · exact Or.inr (Or.inl ⟨_, _, rfl⟩)
        · split
          · exact Or.inr (Or.inr ⟨_, _, _, rfl⟩)
          · exact Or.inr (Or.inr ⟨_, _, _, rfl⟩)

/-- Evaluation rule for jsToString on strings (jsToString is compiled by
well-founded recursion, so this is the propositional equation). -/
theorem jsToString_str (s : String) : jsToString (Json.str s) = s := by
  simp [jsToString]

/-- The create-document fixture parses to document id d1 and workspace
id w1. -/
theorem docIds_docJson : docIds docJson = Except.ok ("d1", "w1") := by
  show Except.ok (jsToString (Json.str "d1"), jsToString (Json.str "w1")) =
    Except.ok ("d1", "w1")
  rw [jsToString_str, jsToString_str]

theorem string_append_cancel_left {s a b : String} (h : s ++ a = s ++ b) : a = b := by
  have hd : (s ++ a).data = (s ++ b).data := congrArg String.data h
  rw [String.data_append, String.data_append] at hd
  exact String.ext (List.append_cancel_left hd)

theorem lookupField_objSet_ne (fs : List (String × Json)) (k k2 : String) (v : Json)
    (h : k2 ≠ k) : lookupField (objSet fs k v) k2 = lookupField fs k2 := by
  induction fs with
  | nil =>
    simp only [objSet, lookupField]
    rw [if_neg (Ne.symm h)]
  | cons hd tl ih =>
    obtain ⟨k1, v1⟩ := hd
    simp only [objSet]
    by_cases hk : k1 = k
    · subst hk
      simp only [if_pos rfl, lookupField]
      rw [if_neg (Ne.symm h), if_neg (Ne.symm h)]
    · simp only [if_neg hk, lookupField, ih]

theorem lookupField_objSet_self (fs : List (String × Json)) (k : String) (v : Json) :
    lookupField (objSet fs k v) k = some v := by
  induction fs with
  | nil => simp [objSet, lookupField]
  | cons hd tl ih =>
    obtain ⟨k1, v1⟩ := hd
    simp only [objSet]
    by_cases hk : k1 = k
    · subst hk
      simp [lookupField]
    · simp only [if_neg hk, lookupField, ih]

/-! ### Claim theorems -/

/-- Claim C1: for every invocation of import_stl with non-empty STL text
whose three external calls all succeed, the adapter issues exactly three
REST calls in strict order create, upload, import; the upload call targets
the created document id d and its default-workspace id w, and the import
call names format STL and the uploaded blob element id. -/
theorem c1_three_calls_in_order
    (env : Env) (p : ImportParams) (doc blob r3 bId : Json) (d w : String)
    (hstl : p.stl ≠ "")
    (h1 : onshapeApiRequest env 0 (callCreate env p) = Except.ok doc)
    (h2 : docIds doc = Except.ok (d, w))
    (h3 : onshapeApiRequest env 1 (callUpload p d w) = Except.ok blob)
    (h4 : jsGet blob "id" = Except.ok bId)
    (h5 : onshapeApiRequest env 2 (callImport p d w bId) = Except.ok r3) :
    (importStlTool env p).2 =
      [callCreate env p, callUpload p d w, callImport p d w bId] ∧
    (callUpload p d w).path =
      "/blobelements/d/" ++ d ++ "/w/" ++ w ++ "?encodedFilename=" ++
        encodeURIComponent (fileNameOf p) ∧
    (callImport p d w bId).body = RequestBody.json (Json.obj
      [("format", Json.str "STL"), ("blobElementId", bId),
       ("importIntoPartStudio", Json.bool true),
       ("createNewPartStudio", Json.bool (p.createNewPartStudio.getD false))]) ∧
    (importStlTool env p).1.isError = false := by
  unfold importStlTool
  rw [if_neg hstl]
  unfold importStlHandler
  rw [h1]
  simp only [h2, h3, h4, h5]
  exact ⟨by simp, rfl, rfl, by simp⟩

/-- Witness for C1: the end-to-end scenario with all three calls
succeeding produces exactly the three calls in order. -/
theorem c1_witness :
    (importStlTool envAllOk paramsPlain).2 =
      [callCreate envAllOk paramsPlain, callUpload paramsPlain "d1" "w1",
       callImport paramsPlain "d1" "w1" (Json.str "b1")] ∧
    (callUpload paramsPlain "d1" "w1").path =
      "/blobelements/d/" ++ "d1" ++ "/w/" ++ "w1" ++ "?encodedFilename=" ++
        encodeURIComponent (fileNameOf paramsPlain) ∧
    (callImport paramsPlain "d1" "w1" (Json.str "b1")).body =
      RequestBody.json (Json.obj
        [("format", Json.str "STL"), ("blobElementId", Json.str "b1"),
         ("importIntoPartStudio", Json.bool true),
         ("createNewPartStudio",
          Json.bool (paramsPlain.createNewPartStudio.getD false))]) ∧
    (importStlTool envAllOk paramsPlain).1.isError = false :=
  c1_three_calls_in_order envAllOk paramsPlain docJson blobJson (Json.obj [])
    (Json.str "b1") "d1" "w1" (by decide) rfl docIds_docJson rfl rfl rfl

/-- Claim C2: a non-success HTTP status at any of the three steps stops
the pipeline: a create failure leaves only the create call, an upload
failure only create and upload, an import failure all three; in each case
the result is the single error message carrying the failing status and
body, and no further (in particular no rollback) call appears in the
trace. -/
theorem c2_failure_aborts
    (env : Env) (p : ImportParams) (hstl : p.stl ≠ "") :
    (∀ st bt, env.respond 0 (callCreate env p) =
        FetchOutcome.response { ok := false, status := st, text := bt } →
      importStlTool env p =
        (errResult ("Onshape API Error " ++ toString st ++ ": " ++ bt),
         [callCreate env p])) ∧
    (∀ doc d w st bt,
      onshapeApiRequest env 0 (callCreate env p) = Except.ok doc →
      docIds doc = Except.ok (d, w) →
      env.respond 1 (callUpload p d w) =
        FetchOutcome.response { ok := false, status := st, text := bt } →
      importStlTool env p =
        (errResult ("Onshape API Error " ++ toString st ++ ": " ++ bt),
         [callCreate env p, callUpload p d w])) ∧
    (∀ doc d w blob bId st bt,
      onshapeApiRequest env 0 (callCreate env p) = Except.ok doc →
      docIds doc = Except.ok (d, w) →
      onshapeApiRequest env 1 (callUpload p d w) = Except.ok blob →
      jsGet blob "id" = Except.ok bId →
      env.respond 2 (callImport p d w bId) =
        FetchOutcome.response { ok := false, status := st, text := bt } →
      importStlTool env p =
        (errResult ("Onshape API Error " ++ toString st ++ ": " ++ bt),
         [callCreate env p, callUpload p d w, callImport p d w bId])) := by
  unfold importStlTool
  rw [if_neg hstl]
  refine ⟨?_, ?_, ?_⟩
  · intro st bt hr
    unfold importStlHandler onshapeApiRequest
    rw [hr]
    rfl
  · intro doc d w st bt h1 h2 hr
    unfold importStlHandler
    rw [h1]
    simp only [h2]
    unfold onshapeApiRequest
    rw [hr]
    rfl
  · intro doc d w blob bId st bt h1 h2 h3 h4 hr
    unfold importStlHandler
    rw [h1]
    simp only [h2, h3, h4]
    unfold onshapeApiRequest
    rw [hr]
    rfl

/-- Witness for C2: a 401 on create yields one call and the 401 error; a
500 on upload yields two calls and the 500 error; a 400 on import yields
three calls and the 400 error. -/
theorem c2_witness :
    importStlTool envCreate401 paramsPlain =
      (errResult ("Onshape API Error " ++ toString 401 ++ ": " ++ "unauthorized"),
       [callCreate envCreate401 paramsPlain]) ∧
    importStlTool envUpload500 paramsPlain =
      (errResult ("Onshape API Error " ++ toString 500 ++ ": " ++ "boom"),
       [callCreate envUpload500 paramsPlain, callUpload paramsPlain "d1" "w1"]) ∧
    importStlTool envImport400 paramsPlain =
      (errResult ("Onshape API Error " ++ toString 400 ++ ": " ++ "bad"),
       [callCreate envImport400 paramsPlain, callUpload paramsPlain "d1" "w1",
        callImport paramsPlain "d1" "w1" (Json.str "b1")]) :=
  ⟨(c2_failure_aborts envCreate401 paramsPlain (by decide)).1 401 "unauthorized" rfl,
   (c2_failure_aborts envUpload500 paramsPlain (by decide)).2.1 docJson "d1" "w1"
     500 "boom" rfl docIds_docJson rfl,
   (c2_failure_aborts envImport400 paramsPlain (by decide)).2.2 docJson "d1" "w1"
     blobJson (Json.str "b1") 400 "bad" rfl docIds_docJson rfl rfl rfl⟩

/-- Claim C3: the empty STL string is rejected by the zod schema before
the handler runs: the result is an error and the call trace is empty. -/
theorem c3_empty_stl_rejected (env : Env) (p : ImportParams) (h : p.stl = "") :
    importStlTool env p = (invalidParamsResult, []) ∧
    invalidParamsResult.isError = true := by
  unfold importStlTool
  rw [if_pos h]
  exact ⟨rfl, rfl⟩

/-- Witness for C3: the empty input makes zero calls and errors, under an
environment that would answer every call successfully. -/
theorem c3_witness :
    importStlTool envAllOk
      { stl := "", documentName := none, filename := none,
        createNewPartStudio := none } = (invalidParamsResult, []) ∧
    invalidParamsResult.isError = true :=
  c3_empty_stl_rejected envAllOk
    { stl := "", documentName := none, filename := none,
      createNewPartStudio := none } rfl

/-- Claim C4: the create call (always the first call of any trace) posts
a JSON body with the chosen name and public false regardless of inputs;
an unspecified documentName falls back to the timestamp-derived
AI Model name, an unspecified filename to model.stl, and every multipart
part of the trace carries that filename and the given STL content. -/
theorem c4_defaults_and_private (env : Env) (p : ImportParams) (hstl : p.stl ≠ "") :
    (importStlTool env p).2.head? = some (callCreate env p) ∧
    callCreate env p =
      { method := "POST", path := "/documents",
        body := RequestBody.json (Json.obj
          [("name", Json.str (docNameOf env p)), ("public", Json.bool false)]) } ∧
    (p.documentName = none → docNameOf env p = "AI Model " ++ env.nowISO) ∧
    (p.filename = none → fileNameOf p = "model.stl") ∧
    (∀ c ∈ (importStlTool env p).2, ∀ fp, c.body = RequestBody.form [fp] →
      fp.filename = fileNameOf p ∧ fp.content = p.stl) := by
  have htool : (importStlTool env p).2 = (importStlHandler env p).2 := by
    unfold importStlTool
    rw [if_neg hstl]
  refine ⟨?_, rfl, ?_, ?_, ?_⟩
  · rw [htool]
    rcases handler_trace_cases env p with h | ⟨d, w, h⟩ | ⟨d, w, bId, h⟩ <;>
      rw [h] <;> rfl
  · intro h
    unfold docNameOf
    rw [h]
    rfl
  · intro h
    unfold fileNameOf
    rw [h]
    rfl
  · rw [htool]
    rcases handler_trace_cases env p with h | ⟨d, w, h⟩ | ⟨d, w, bId, h⟩ <;>
        rw [h] <;> intro c hc fp hfp <;>
      simp only [List.mem_cons, List.not_mem_nil, or_false] at hc
    · subst hc
      simp [callCreate] at hfp
    · rcases hc with rfl | rfl
      · simp [callCreate] at hfp
      · simp only [callUpload] at hfp
        injection hfp with h1
        injection h1 with h2 _
        rw [← h2]
        exact ⟨rfl, rfl⟩
    · rcases hc with rfl | rfl | rfl
      · simp [callCreate] at hfp
      · simp only [callUpload] at hfp
        injection hfp with h1
        injection h1 with h2 _
        rw [← h2]
        exact ⟨rfl, rfl⟩
      · simp [callImport] at hfp

/-- Witness for C4: the plain scenario has the private create call first,
default name AI Model timestamp, default filename model.stl, and every
form part carries them. -/
theorem c4_witness :
    (importStlTool envAllOk paramsPlain).2.head? =
      some (callCreate envAllOk paramsPlain) ∧
    callCreate envAllOk paramsPlain =
      { method := "POST", path := "/documents",
        body := RequestBody.json (Json.obj
          [("name", Json.str (docNameOf envAllOk paramsPlain)),
           ("public", Json.bool false)]) } ∧
    (paramsPlain.documentName = none →
      docNameOf envAllOk paramsPlain = "AI Model " ++ envAllOk.nowISO) ∧
    (paramsPlain.filename = none → fileNameOf paramsPlain = "model.stl") ∧
    (∀ c ∈ (importStlTool envAllOk paramsPlain).2, ∀ fp,
      c.body = RequestBody.form [fp] →
      fp.filename = fileNameOf paramsPlain ∧ fp.content = paramsPlain.stl) :=
  c4_defaults_and_private envAllOk paramsPlain (by decide)

/-- Claim C5: when all three calls succeed, the tool output is the
non-error confirmation literally containing the created document id and
the viewer URL https://cad.onshape.com/documents/ followed by that id. -/
theorem c5_success_message
    (env : Env) (p : ImportParams) (doc blob r3 bId : Json) (d w : String)
    (hstl : p.stl ≠ "")
    (h1 : onshapeApiRequest env 0 (callCreate env p) = Except.ok doc)
    (h2 : docIds doc = Except.ok (d, w))
    (h3 : onshapeApiRequest env 1 (callUpload p d w) = Except.ok blob)
    (h4 : jsGet blob "id" = Except.ok bId)
    (h5 : onshapeApiRequest env 2 (callImport p d w bId) = Except.ok r3) :
    (importStlTool env p).1 =
      { text := "🎉 Imported STL into Onshape!\nDocument: " ++ docNameOf env p ++
          "\nID: " ++ d ++ "\nView: https://cad.onshape.com/documents/" ++ d,
        isError := false } := by
  unfold importStlTool
  rw [if_neg hstl]
  unfold importStlHandler
  rw [h1]
  simp only [h2, h3, h4, h5]
  rfl

/-- Witness for C5: the fixture run returns the confirmation with id d1
and its viewer link. -/
theorem c5_witness :
    (importStlTool envAllOk paramsPlain).1 =
      { text := "🎉 Imported STL into Onshape!\nDocument: " ++
          docNameOf envAllOk paramsPlain ++ "\nID: " ++ "d1" ++
          "\nView: https://cad.onshape.com/documents/" ++ "d1",
        isError := false } :=
  c5_success_message envAllOk paramsPlain docJson blobJson (Json.obj [])
    (Json.str "b1") "d1" "w1" (by decide) rfl docIds_docJson rfl rfl rfl

/-- Claim C9: the tool call is total over every input and every service
behaviour (non-success status, transport rejection, unparsable body):
it always returns either the schema rejection, an error-flagged message
from the catch branch, or the non-error success confirmation. -/
theorem c9_total_response (env : Env) (p : ImportParams) :
    ((importStlTool env p).1 = invalidParamsResult ∧
      (importStlTool env p).1.isError = true) ∨
    (∃ m, (importStlTool env p).1 = errResult m ∧
      (importStlTool env p).1.isError = true) ∨
    (∃ d, (importStlTool env p).1 =
      { text := successText (docNameOf env p) d, isError := false }) := by
  unfold importStlTool
  split
  · exact Or.inl ⟨rfl, rfl⟩
  · unfold importStlHandler
    split
    · exact Or.inr (Or.inl ⟨_, rfl, rfl⟩)
    · split
      · exact Or.inr (Or.inl ⟨_, rfl, rfl⟩)
      · split
        · exact Or.inr (Or.inl ⟨_, rfl, rfl⟩)
        · split
          · exact Or.inr (Or.inl ⟨_, rfl, rfl⟩)
          · split
            · exact Or.inr (Or.inl ⟨_, rfl, rfl⟩)
            · exact Or.inr (Or.inr ⟨_, rfl⟩)

/-- Counterexample to C6 as stated: an environment key that is present
but empty is not absent, yet the process exits (the code tests JavaScript
falsiness, not absence), so no header is computed. -/
theorem c6_counterexample :
    some "" ≠ (none : Option String) ∧ some "k" ≠ (none : Option String) ∧
    startup (some "") (some "k") = none ∧
    startup (some "") (some "k") ≠ some (authHeaderOf "" "k") := by decide

/-- Claim C6 (amended): if either credential entry is absent or empty the
process exits before serving; otherwise the Basic authorization header is
computed once, as Basic plus the base64 of access:secret, and held as an
immutable value. -/
theorem c6_startup_auth (access secret : Option String) :
    (envTruthy access = false ∨ envTruthy secret = false →
      startup access secret = none) ∧
    (envTruthy access = true → envTruthy secret = true →
      startup access secret =
        some ("Basic " ++ base64Of (access.getD "" ++ ":" ++ secret.getD ""))) := by
  constructor
  · intro h
    unfold startup
    rcases h with h | h <;> rw [h] <;> simp
  · intro ha hs
    unfold startup
    rw [ha, hs]
    rfl

/-- Witness for C6: present non-empty keys produce the Basic header, a
missing key exits. -/
theorem c6_witness :
    startup (some "ak") (some "sk") =
      some ("Basic " ++ base64Of ("ak" ++ ":" ++ "sk")) ∧
    startup none (some "sk") = none :=
  ⟨(c6_startup_auth (some "ak") (some "sk")).2 rfl rfl,
   (c6_startup_auth none (some "sk")).1 (Or.inl rfl)⟩

/-- Counterexample to C7 as stated: two distinct invocations (distinct
tool arguments) whose timestamps coincide — the clock has millisecond
resolution — receive the same default document name. -/
theorem c7_counterexample :
    paramsPlain ≠ paramsAltStl ∧
    paramsPlain.documentName = none ∧ paramsAltStl.documentName = none ∧
    docNameOf envAllOk paramsPlain = docNameOf envAllOk paramsAltStl :=
  ⟨by decide, rfl, rfl, rfl⟩

/-- Claim C7 (amended): with documentName unspecified, invocations whose
ISO timestamps differ receive distinct generated default names. -/
theorem c7_distinct_timestamps_distinct_names
    (env1 env2 : Env) (p1 p2 : ImportParams)
    (h1 : p1.documentName = none) (h2 : p2.documentName = none)
    (hne : env1.nowISO ≠ env2.nowISO) :
    docNameOf env1 p1 ≠ docNameOf env2 p2 := by
  unfold docNameOf
  rw [h1, h2]
  intro h
  exact hne (string_append_cancel_left h)

/-- Witness for C7: two invocations one day apart get distinct names. -/
theorem c7_witness :
    docNameOf envAllOk paramsPlain ≠ docNameOf envLater paramsPlain :=
  c7_distinct_timestamps_distinct_names envAllOk envLater paramsPlain paramsPlain
    rfl rfl (by decide)

/-- An existing configuration file without a mcpServers key. -/
def setupNoMs : SetupInput :=
  { configExists := true, parsed := some [("foo", Json.str "bar")],
    accessKey := "ak", secretKey := "sk", ts := "20240101_000000",
    projectDir := "/p", home := "/h" }

/-- Claim C8 as stated: every write of the configuration file is preceded
by a backup copy of it. -/
def backupBeforeEveryWrite (inp : SetupInput) : Prop :=
  ∀ (i : Nat) (p : String) (c : Json),
    (setupEvents inp)[i]? = some (FsEvent.write p c) →
    ∃ (j : Nat) (dst : String), j < i ∧
      (setupEvents inp)[j]? = some (FsEvent.copy p dst)

/-- Counterexample to C8 as stated: on an existing config file lacking the
mcpServers key, step 5 of the script writes the key into the file before
any backup exists (the backup is only taken in step 7). -/
theorem c8_counterexample : ¬ backupBeforeEveryWrite setupNoMs := by
  intro h
  obtain ⟨j, dst, hj, _⟩ := h 0 (cfgPath setupNoMs)
    (Json.obj [("foo", Json.str "bar"), ("mcpServers", Json.obj [])]) rfl
  exact Nat.not_lt_zero j hj

/-- Claim C8 (amended): when the script reaches the configuration update,
the timestamped backup copy is created immediately before the update
write; but a run may first perform one step-5 write of the config file
(creating it, or inserting a missing mcpServers key) before any backup.
Runs that abort on a parse failure touch nothing. -/
theorem c8_backup_before_update (inp : SetupInput) (hk : keysOk inp = true) :
    (inp.configExists = true ∧ inp.parsed = none ∧ setupEvents inp = []) ∨
    (∃ pre fin, setupEvents inp =
        pre ++ [backupEvent inp, FsEvent.write (cfgPath inp) fin] ∧
      pre.length ≤ 1 ∧ ∀ e ∈ pre, ∃ c, e = FsEvent.write (cfgPath inp) c) := by
  rcases hB : inp.configExists with _ | _
  · refine Or.inr ⟨[FsEvent.write (cfgPath inp) (Json.obj initialConfig)],
      Json.obj (updateConfig initialConfig
        (serverEntry inp.projectDir inp.accessKey inp.secretKey)), ?_, by simp, ?_⟩
    · simp [setupEvents, step7Events, hB, hk]
    · intro e he
      simp only [List.mem_singleton] at he
      exact ⟨_, he⟩
  · rcases hp : inp.parsed with _ | fs
    · exact Or.inl ⟨rfl, rfl, by simp [setupEvents, hB, hp]⟩
    · by_cases ht : jsTruthy (lookupD fs "mcpServers") = true
      · refine Or.inr ⟨[], Json.obj (updateConfig fs
          (serverEntry inp.projectDir inp.accessKey inp.secretKey)), ?_,
          by simp, by simp⟩
        simp [setupEvents, step7Events, hB, hp, ht, hk]
      · refine Or.inr ⟨[FsEvent.write (cfgPath inp)
            (Json.obj (objSet fs "mcpServers" (Json.obj [])))],
          Json.obj (updateConfig (objSet fs "mcpServers" (Json.obj []))
            (serverEntry inp.projectDir inp.accessKey inp.secretKey)), ?_,
          by simp, ?_⟩
        · simp [setupEvents, step7Events, hB, hp, ht, hk]
        · intro e he
          simp only [List.mem_singleton] at he
          exact ⟨_, he⟩

/-- Witness for C8 (amended): on the config lacking mcpServers, the run
decomposes into one step-5 write, then the backup immediately followed by
the update write. -/
theorem c8_witness :
    (setupNoMs.configExists = true ∧ setupNoMs.parsed = none ∧
      setupEvents setupNoMs = []) ∨
    (∃ pre fin, setupEvents setupNoMs =
        pre ++ [backupEvent setupNoMs, FsEvent.write (cfgPath setupNoMs) fin] ∧
      pre.length ≤ 1 ∧
      ∀ e ∈ pre, ∃ c, e = FsEvent.write (cfgPath setupNoMs) c) :=
  c8_backup_before_update setupNoMs rfl

/-- Claim C10: the step-7 configuration update only adds or replaces the
entry onshape_mcp inside mcpServers: every other top-level key of the
configuration object keeps its value, and when mcpServers is an object,
every other entry of it keeps its value while onshape_mcp becomes the new
server entry. -/
theorem c10_update_frame (fs : List (String × Json)) (entry : Json) :
    (∀ k, k ≠ "mcpServers" →
      lookupField (updateConfig fs entry) k = lookupField fs k) ∧
    (∀ g, lookupD fs "mcpServers" = Json.obj g →
      lookupField (updateConfig fs entry) "mcpServers" =
        some (Json.obj (objSet g "onshape_mcp" entry)) ∧
      (∀ n, n ≠ "onshape_mcp" →
        lookupField (objSet g "onshape_mcp" entry) n = lookupField g n) ∧
      lookupField (objSet g "onshape_mcp" entry) "onshape_mcp" = some entry) := by
  constructor
  · intro k hk
    unfold updateConfig
    rw [lookupField_objSet_ne _ "mcpServers" k _ hk]
    unfold ensureMcp
    by_cases ht : jsTruthy (lookupD fs "mcpServers") = true
    · rw [if_pos ht]
    · rw [if_neg ht, lookupField_objSet_ne _ "mcpServers" k _ hk]
  · intro g hg
    have ht : jsTruthy (lookupD fs "mcpServers") = true := by rw [hg]; rfl
    have hens : ensureMcp fs = fs := by unfold ensureMcp; rw [if_pos ht]
    refine ⟨?_, fun n hn => lookupField_objSet_ne g "onshape_mcp" n entry hn,
      lookupField_objSet_self g "onshape_mcp" entry⟩
    unfold updateConfig
    rw [hens, hg, lookupField_objSet_self]
    rfl

/-- A configuration with one unrelated top-level key and one unrelated
existing server entry. -/
def cfgFix : List (String × Json) :=
  [("other", Json.str "x"),
   ("mcpServers", Json.obj [("prev", Json.str "y")])]

def entryFix : Json := serverEntry "/p" "ak" "sk"

/-- Witness for C10: the unrelated key and the unrelated server entry are
preserved, and onshape_mcp maps to the installed entry. -/
theorem c10_witness :
    lookupField (updateConfig cfgFix entryFix) "other" = lookupField cfgFix "other" ∧
    lookupField (updateConfig cfgFix entryFix) "mcpServers" =
      some (Json.obj (objSet [("prev", Json.str "y")] "onshape_mcp" entryFix)) ∧
    lookupField (objSet [("prev", Json.str "y")] "onshape_mcp" entryFix) "prev" =
      lookupField [("prev", Json.str "y")] "prev" ∧
    lookupField (objSet [("prev", Json.str "y")] "onshape_mcp" entryFix)
      "onshape_mcp" = some entryFix :=
  ⟨(c10_update_frame cfgFix entryFix).1 "other" (by decide),
   ((c10_update_frame cfgFix entryFix).2 [("prev", Json.str "y")] rfl).1,
   ((c10_update_frame cfgFix entryFix).2 [("prev", Json.str "y")] rfl).2.1 "prev"
     (by decide),
   ((c10_update_frame cfgFix entryFix).2 [("prev", Json.str "y")] rfl).2.2⟩

end VibeCAD
